import Mathlib

/-!
Verification of the trace-analysis core of the `ai-dev-kit` repository:
the record decoder, the metrics aggregator and the policy evaluator,
together with the script-wrapper helpers of `.test/scripts/_common.py`.

The trace core (`skill_test.trace.models`, `skill_test.trace.parser`,
`skill_test.cli.commands.trace_eval`) ships only as tests, callers and
package exports; its definitions below are modelled from the
specification document, as marked on each definition. The script-wrapper
helpers are embedded directly from `.test/scripts/_common.py` and
`.test/scripts/run_eval.py`.
-/

set_option autoImplicit false

namespace SkillTest

/-- Modelled from the spec: per-turn token usage counters {input, output,
cache-write, cache-read}, all non-negative integers, a missing field
counting as zero (spec section 3, "Token Usage"). Field names follow the
trace fixture format (`usage` object of an assistant message). -/
structure TokenUsage where
  input_tokens : Nat
  output_tokens : Nat
  cache_creation_input_tokens : Nat
  cache_read_input_tokens : Nat
deriving Repr, DecidableEq

/-- Modelled from the spec: a content block is a tagged variant — text,
tool invocation (call id, tool name, input parameters), or tool result
(correlated call id, result payload) (spec section 3, "Content Block").
Of the invocation's input parameters only the optional file path matters
to this core (File Operation Tracker, spec section 4.4); `other` stands
for an unrecognized block type, which downstream consumers skip
silently (spec section 4.2). -/
inductive ContentBlock where
  | text (s : String)
  | tool_use (id : String) (name : String) (filePath : Option String)
  | tool_result (tool_use_id : String) (content : String)
  | other (type : String)
deriving Repr, DecidableEq

/-- Modelled from the spec: a polymorphic message payload — either one
opaque text value or an ordered list of typed blocks (spec section 4.2). -/
inductive MessageContent where
  | text (s : String)
  | blocks (bs : List ContentBlock)
deriving Repr, DecidableEq

/-- Modelled from the spec: structured tool-result metadata naming an
operation kind and a file path (spec sections 3 and 4.4; the trace
fixture's entry-level `toolUseResult` object). -/
structure FileOpMeta where
  kind : String
  filePath : String
deriving Repr, DecidableEq

/-- Modelled from the spec: an assistant payload carries a model id,
token usage and content blocks (spec section 3, "Transcript Entry"). -/
structure AssistantPayload where
  model : String
  usage : TokenUsage
  content : MessageContent
deriving Repr, DecidableEq

/-- Modelled from the spec: the type-dependent payload of an entry —
user payloads carry freeform text or tool-result blocks plus optional
tool-result metadata; assistant payloads carry model, usage and content
(spec section 3). -/
inductive EntryPayload where
  | user (content : MessageContent) (toolUseResult : Option FileOpMeta)
  | assistant (p : AssistantPayload)
deriving Repr, DecidableEq

/-- Modelled from the spec: one decoded transcript entry — unique id,
timestamp, session identifier, optional parent-entry id, and a
type-dependent payload (spec section 3, "Transcript Entry"). -/
structure TranscriptEntry where
  uuid : String
  timestamp : String
  sessionId : Option String
  parentUuid : Option String
  payload : EntryPayload
deriving Repr, DecidableEq

/-- Whether an entry is an assistant entry. -/
def TranscriptEntry.isAssistant (e : TranscriptEntry) : Bool :=
  match e.payload with
  | .assistant _ => true
  | .user _ _ => false

/-- Modelled from the spec: the Content Extractor normalizes a payload
into a flat ordered block list — a single opaque text value becomes one
synthesized text block, a list of typed blocks is kept as is (spec
section 4.2). -/
def extract_content : MessageContent → List ContentBlock
  | .text s => [ContentBlock.text s]
  | .blocks bs => bs

/-- Modelled from the spec: the immutable Trace Metrics aggregate (spec
section 3, "Trace Metrics"): session id, total tool-call count,
tool-name and category count mappings, token totals (headline and cache
counters kept separately), assistant-turn count, distinct read/created
file sets, and a lightweight per-turn conversation summary. Counters
are association lists preserving first-insertion order; file sets are
deduplicated lists. -/
structure TraceMetrics where
  session_id : Option String
  total_tool_calls : Nat
  tool_counts : List (String × Nat)
  category_counts : List (String × Nat)
  total_input_tokens : Nat
  total_output_tokens : Nat
  total_cache_creation_tokens : Nat
  total_cache_read_tokens : Nat
  total_tokens : Nat
  num_turns : Nat
  files_read : List String
  files_created : List String
  conversation : List String
deriving Repr, DecidableEq

/-- The all-zero, all-empty metrics value a fresh aggregation starts from. -/
def emptyMetrics : TraceMetrics :=
  { session_id := none
    total_tool_calls := 0
    tool_counts := []
    category_counts := []
    total_input_tokens := 0
    total_output_tokens := 0
    total_cache_creation_tokens := 0
    total_cache_read_tokens := 0
    total_tokens := 0
    num_turns := 0
    files_read := []
    files_created := []
    conversation := [] }

/-- Increment the counter stored under key `k` in an association list,
appending a fresh entry when the key is absent. -/
def incr : List (String × Nat) → String → List (String × Nat)
  | [], k => [(k, 1)]
  | (k', v) :: rest, k =>
      if k' = k then (k', v + 1) :: rest else (k', v) :: incr rest k

/-- Look up the counter stored under key `k`, defaulting to zero. -/
def countOf : List (String × Nat) → String → Nat
  | [], _ => 0
  | (k', v) :: rest, k => if k' = k then v else countOf rest k

/-- Append an element to a deduplicated list unless already present. -/
def insertDistinct (l : List String) (x : String) : List String :=
  if x ∈ l then l else l ++ [x]

/-- Modelled from the spec: the explicit name-to-category table for
built-in tools — shell-execution tools in one category, filesystem
tools in another (spec sections 4.5 and 9). -/
def builtinCategories : List (String × String) :=
  [("Bash", "bash"), ("Read", "file"), ("Write", "file"), ("Edit", "file"),
   ("Glob", "search"), ("Grep", "search")]

/-- Look up a tool name in the built-in category table. -/
def lookupCategory : List (String × String) → String → Option String
  | [], _ => none
  | (k, v) :: rest, n => if k = n then some v else lookupCategory rest n

/-- Modelled from the spec: category derivation — names carrying the
external-source namespace marker (`mcp__<source>__...`) are grouped by
declared source, built-in names go through the explicit table, and
everything else falls to the residual category (spec section 4.5). -/
def toolCategory (name : String) : String :=
  if name.startsWith "mcp__" then
    match name.splitOn "__" with
    | _ :: source :: _ => "mcp_" ++ source
    | _ => "mcp"
  else
    match lookupCategory builtinCategories name with
    | some c => c
    | none => "other"

/-- Modelled from the spec: which operation kind an invocation of a
known file-touching tool implies for the file path named in its
parameters (spec section 4.4, case (a)). -/
def fileToolKind : String → Option String
  | "Read" => some "read"
  | "Write" => some "create"
  | "Edit" => some "create"
  | _ => none

/-- Modelled from the spec: session id is the first non-empty value seen
anywhere, first-wins (spec section 4.5). -/
def applySession (m : TraceMetrics) (sid : Option String) : TraceMetrics :=
  match m.session_id, sid with
  | none, some s => if s = "" then m else { m with session_id := some s }
  | _, _ => m

/-- Modelled from the spec: fold one tool invocation into the name and
category counters and, for a known file-touching tool naming a path,
into the distinct file sets (spec sections 4.4 and 4.5). -/
def recordToolUse (m : TraceMetrics) (name : String) (fp : Option String) :
    TraceMetrics :=
  let m' := { m with
    total_tool_calls := m.total_tool_calls + 1
    tool_counts := incr m.tool_counts name
    category_counts := incr m.category_counts (toolCategory name) }
  match fileToolKind name, fp with
  | some "read", some p => { m' with files_read := insertDistinct m'.files_read p }
  | some "create", some p => { m' with files_created := insertDistinct m'.files_created p }
  | _, _ => m'

/-- Modelled from the spec: the per-block step of the aggregation fold —
tool invocations are recorded, every other block kind leaves the
counters unchanged (spec section 4.5). -/
def stepBlock (m : TraceMetrics) (b : ContentBlock) : TraceMetrics :=
  match b with
  | .tool_use _ name fp => recordToolUse m name fp
  | _ => m

/-- Modelled from the spec: record a file operation from explicit
tool-result metadata — kind `read` feeds the read set, kinds `create`
and `write` feed the created set, anything else (including an empty
kind) records nothing (spec sections 4.4 and 9). -/
def applyMeta (m : TraceMetrics) (meta : Option FileOpMeta) : TraceMetrics :=
  match meta with
  | none => m
  | some fm =>
      if fm.kind = "read" then
        { m with files_read := insertDistinct m.files_read fm.filePath }
      else if fm.kind = "create" ∨ fm.kind = "write" then
        { m with files_created := insertDistinct m.files_created fm.filePath }
      else m

/-- Modelled from the spec: the Token Accountant accumulates the four
usage counters of one assistant turn into the running totals; the
headline total advances by input plus output only, the cache counters
advance their own separate sums (spec section 4.3). -/
def addUsage (m : TraceMetrics) (u : TokenUsage) : TraceMetrics :=
  { m with
    total_input_tokens := m.total_input_tokens + u.input_tokens
    total_output_tokens := m.total_output_tokens + u.output_tokens
    total_cache_creation_tokens :=
      m.total_cache_creation_tokens + u.cache_creation_input_tokens
    total_cache_read_tokens :=
      m.total_cache_read_tokens + u.cache_read_input_tokens
    total_tokens := m.total_tokens + u.input_tokens + u.output_tokens }

/-- First text block of a block list, used as the lightweight per-turn
conversation summary; empty when the turn has no text block. -/
def firstText : List ContentBlock → String
  | [] => ""
  | ContentBlock.text s :: _ => s
  | _ :: rest => firstText rest

/-- Modelled from the spec: one step of the single left-fold of the
Metrics Aggregator (spec section 4.5). On an assistant entry: take the
session id first-wins, accumulate token usage, increment the turn
count, append a per-turn summary, then fold the extracted content
blocks through the tool counters. On a user entry: take the session id
and feed any tool-result metadata to the File Operation Tracker.
Call/result correlation ("metadata wins", spec section 4.4) is
simplified to recording invocation-argument paths at invocation time
and metadata paths at result time into the same deduplicated sets; the
two prescriptions differ only when an invocation's argument path and
its result metadata disagree on the path of one correlated call. -/
def step (m : TraceMetrics) (e : TranscriptEntry) : TraceMetrics :=
  let m0 := applySession m e.sessionId
  match e.payload with
  | .assistant p =>
      let m1 := { addUsage m0 p.usage with
        num_turns := m0.num_turns + 1
        conversation := m0.conversation ++ [firstText (extract_content p.content)] }
      (extract_content p.content).foldl stepBlock m1
  | .user _ meta => applyMeta m0 meta

/-- Modelled from the spec: the Metrics Aggregator is a single left-fold
over the ordered entry stream, starting from the all-zero metrics (spec
section 4.5). -/
def compute_metrics (es : List TranscriptEntry) : TraceMetrics :=
  es.foldl step emptyMetrics

/-- Modelled from the spec: the token-budget part of a policy, a single
integer ceiling `max_total` (spec section 6, "Policy input"). Ceilings
are integers so that a malformed (negative) ceiling is representable
(spec section 4.6). -/
structure TokenBudget where
  max_total : Int
deriving Repr, DecidableEq

/-- Modelled from the spec: the externally supplied, immutable Trace
Expectations policy — per-tool ceilings, optional token budget,
required and banned tool lists, expected-file glob patterns, per-category
ceilings (spec sections 3 and 6). -/
structure TraceExpectations where
  tool_limits : List (String × Int)
  token_budget : Option TokenBudget
  required_tools : List String
  banned_tools : List String
  expected_files : List String
  category_limits : List (String × Int)
deriving Repr, DecidableEq

/-- Modelled from the spec: a policy is well-formed when every ceiling is
non-negative; the evaluator fails hard on a malformed policy such as a
negative ceiling (spec section 4.6 and section 7, "PolicyError"). -/
def TraceExpectations.wellFormedB (p : TraceExpectations) : Bool :=
  p.tool_limits.all (fun x => 0 ≤ x.2) &&
  p.category_limits.all (fun x => 0 ≤ x.2) &&
  (match p.token_budget with
   | none => true
   | some b => 0 ≤ b.max_total)

/-- Modelled from the spec: one detected policy breach, a check/category
tag plus a rationale string (spec section 3, "Violation"). -/
structure Violation where
  scorer : String
  rationale : String
deriving Repr, DecidableEq

/-- The check number, 1 through 6, that a violation's tag belongs to
(spec section 4.6 fixes this numbering). -/
def checkNumber (v : Violation) : Nat :=
  if v.scorer = "tool_limit" then 1
  else if v.scorer = "category_limit" then 2
  else if v.scorer = "token_budget" then 3
  else if v.scorer = "required_tools" then 4
  else if v.scorer = "banned_tools" then 5
  else if v.scorer = "expected_files" then 6
  else 0

/-- Glob matching over character lists: `*` matches any run of
characters, `?` matches one character, every other pattern character
matches itself. -/
def globMatchChars : List Char → List Char → Bool
  | [], [] => true
  | [], _ :: _ => false
  | '*' :: ps, [] => globMatchChars ps []
  | '*' :: ps, c :: cs => globMatchChars ps (c :: cs) || globMatchChars ('*' :: ps) cs
  | '?' :: ps, _ :: cs => globMatchChars ps cs
  | p :: ps, c :: cs => p = c && globMatchChars ps cs
  | _ :: _, [] => false
termination_by p s => (p.length, s.length)

/-- Whether a file path matches one glob pattern. -/
def globMatch (pat s : String) : Bool :=
  globMatchChars pat.data s.data

/-- Modelled from the spec, check 1: per-tool ceiling exceeded, a
violation naming tool, observed count and ceiling, in the policy
mapping's own iteration order (spec section 4.6). -/
def checkToolLimits (m : TraceMetrics) (p : TraceExpectations) : List Violation :=
  p.tool_limits.filterMap fun x =>
    if (countOf m.tool_counts x.1 : Int) > x.2 then
      some { scorer := "tool_limit"
             rationale := s!"Tool {x.1} used {countOf m.tool_counts x.1} times, limit {x.2}" }
    else none

/-- Modelled from the spec, check 2: per-category ceiling exceeded (spec
section 4.6). -/
def checkCategoryLimits (m : TraceMetrics) (p : TraceExpectations) : List Violation :=
  p.category_limits.filterMap fun x =>
    if (countOf m.category_counts x.1 : Int) > x.2 then
      some { scorer := "category_limit"
             rationale := s!"Category {x.1} used {countOf m.category_counts x.1} times, limit {x.2}" }
    else none

/-- Modelled from the spec, check 3: token budget exceeded, a violation
with observed total and ceiling (spec section 4.6). -/
def checkTokenBudget (m : TraceMetrics) (p : TraceExpectations) : List Violation :=
  match p.token_budget with
  | none => []
  | some b =>
      if (m.total_tokens : Int) > b.max_total then
        [{ scorer := "token_budget"
           rationale := s!"Total tokens {m.total_tokens} exceed budget {b.max_total}" }]
      else []

/-- Modelled from the spec, check 4: required tool absent — count zero
or missing — tagged "required" (spec section 4.6). -/
def checkRequiredTools (m : TraceMetrics) (p : TraceExpectations) : List Violation :=
  p.required_tools.filterMap fun t =>
    if countOf m.tool_counts t = 0 then
      some { scorer := "required_tools"
             rationale := s!"Required tool {t} was never used" }
    else none

/-- Modelled from the spec, check 5: banned tool present, count greater
than zero (spec section 4.6). -/
def checkBannedTools (m : TraceMetrics) (p : TraceExpectations) : List Violation :=
  p.banned_tools.filterMap fun t =>
    if countOf m.tool_counts t > 0 then
      some { scorer := "banned_tools"
             rationale := s!"Banned tool {t} was used {countOf m.tool_counts t} times" }
    else none

/-- Modelled from the spec, check 6: expected-file pattern with no
matching recorded path, read or created (spec section 4.6). -/
def checkExpectedFiles (m : TraceMetrics) (p : TraceExpectations) : List Violation :=
  p.expected_files.filterMap fun pat =>
    if (m.files_read ++ m.files_created).any (fun f => globMatch pat f) then none
    else
      some { scorer := "expected_files"
             rationale := s!"No recorded file matches pattern {pat}" }

/-- Modelled from the spec: the error of a malformed policy (spec
section 7, "PolicyError"). -/
inductive PolicyError where
  | negativeLimit
deriving Repr, DecidableEq

/-- Modelled from the spec: the Policy Evaluator — fails hard on a
malformed policy before computing any violation, otherwise runs all six
checks with no short-circuit and appends their violations in check
order 1 through 6 (spec section 4.6). -/
def evaluate_policy (m : TraceMetrics) (p : TraceExpectations) :
    Except PolicyError (List Violation) :=
  if p.wellFormedB then
    Except.ok (checkToolLimits m p ++ checkCategoryLimits m p ++
      checkTokenBudget m p ++ checkRequiredTools m p ++
      checkBannedTools m p ++ checkExpectedFiles m p)
  else Except.error PolicyError.negativeLimit

/-- Modelled from the spec: one raw line of a trace file, as seen by the
Record Decoder — blank (skipped, not an error), undecodable
(DecodeError: not well-formed or lacking a recognized type
discriminator), or a decoded record (spec section 4.1). The JSON
decoding itself is abstracted into this three-way outcome. -/
inductive TraceLine where
  | blank
  | malformed (raw : String)
  | record (e : TranscriptEntry)
deriving Repr, DecidableEq

/-- Whether a line is an undecodable (DecodeError) line. -/
def TraceLine.isMalformed : TraceLine → Bool
  | .malformed _ => true
  | _ => false

/-- The entries of the decodable lines of a file, in order. -/
def decodedEntries (ls : List TraceLine) : List TranscriptEntry :=
  ls.filterMap fun l =>
    match l with
    | .record e => some e
    | _ => none

/-- Modelled from the spec: file-level parse errors — NotFound when the
input path is absent, and the whole-file escalation when zero lines of
the file decode (spec sections 4.5 and 7). -/
inductive ParseError where
  | notFound (path : String)
  | noEntriesDecoded
deriving Repr, DecidableEq

/-- Modelled from the spec: the best-effort line fold of the parser —
blank lines are skipped, each undecodable line is skipped and counted
in a visible side channel, decoded records are kept in order (spec
sections 4.1, 4.5 and 9). -/
def decodeStep (acc : List TranscriptEntry × Nat) (l : TraceLine) :
    List TranscriptEntry × Nat :=
  match l with
  | .blank => acc
  | .malformed _ => (acc.1, acc.2 + 1)
  | .record e => (acc.1 ++ [e], acc.2)

/-- Modelled from the spec: fold the whole file through the best-effort
per-line decoder, starting from no entries and a zero skip count (spec
sections 4.1 and 4.5). -/
def decodeLines (ls : List TraceLine) : List TranscriptEntry × Nat :=
  ls.foldl decodeStep ([], 0)

/-- Modelled from the spec: parse a whole trace, returning the decoded
entries and the skipped-line count, escalating to a whole-file parse
failure only when zero lines decode (spec sections 4.5 and 7). -/
def parse_transcript (ls : List TraceLine) :
    Except ParseError (List TranscriptEntry × Nat) :=
  let r := decodeLines ls
  if r.1.isEmpty then Except.error ParseError.noEntriesDecoded
  else Except.ok r

/-- Modelled from the spec: the file system handed to the whole-file
convenience path, an association of paths to line lists. -/
def FileSystem : Type := List (String × List TraceLine)

/-- Look up a path in the modelled file system. -/
def readFile : FileSystem → String → Option (List TraceLine)
  | [], _ => none
  | (p, ls) :: rest, q => if p = q then some ls else readFile rest q

/-- Modelled from the spec: parse a trace file and compute its metrics —
fails with NotFound when the input path is absent, otherwise parses the
lines and folds the decoded entries into one metrics summary (spec
section 4.5). -/
def parse_and_compute_metrics (fs : FileSystem) (path : String) :
    Except ParseError TraceMetrics :=
  match readFile fs path with
  | none => Except.error (ParseError.notFound path)
  | some ls => (parse_transcript ls).map fun r => compute_metrics r.1

/-- Modelled from the spec: the structured result every evaluation
returns — an explicit boolean success indicator, an error message on
failure, the count of traces evaluated and the flat violation list
(spec sections 6 and 7). -/
structure EvalResult where
  success : Bool
  error : Option String
  traces_evaluated : Nat
  all_violations : List Violation
deriving Repr, DecidableEq

/-- Modelled from the spec: evaluate one trace path against one policy,
returning a structured result rather than terminating abruptly — file
and policy failures surface as `success := false` with a populated
error message (spec sections 6 and 7, `trace_eval`). -/
def trace_eval (fs : FileSystem) (path : String) (p : TraceExpectations) :
    EvalResult :=
  match parse_and_compute_metrics fs path with
  | Except.error (ParseError.notFound q) =>
      { success := false
        error := some ("Trace file not found: " ++ q)
        traces_evaluated := 0
        all_violations := [] }
  | Except.error ParseError.noEntriesDecoded =>
      { success := false
        error := some "No entries decoded from trace file"
        traces_evaluated := 0
        all_violations := [] }
  | Except.ok m =>
      match evaluate_policy m p with
      | Except.error _ =>
          { success := false
            error := some "Malformed trace_expectations policy"
            traces_evaluated := 1
            all_violations := [] }
      | Except.ok vs =>
          { success := true
            error := none
            traces_evaluated := 1
            all_violations := vs }

/-- A JSON-like value, the target of the machine-consumable metrics
serialization (spec section 6). -/
inductive Json where
  | null
  | bool (b : Bool)
  | num (n : Int)
  | str (s : String)
  | arr (xs : List Json)
  | obj (fields : List (String × Json))

/-- Look up a key of a JSON object; `none` on any other value. -/
def Json.getKey : Json → String → Option Json
  | .obj fields, k => go fields k
  | _, _ => none
where
  go : List (String × Json) → String → Option Json
  | [], _ => none
  | (k', v) :: rest, k => if k' = k then some v else go rest k

/-- Two-level key lookup in a JSON value. -/
def Json.getPath (j : Json) (k1 k2 : String) : Option Json :=
  match j.getKey k1 with
  | some j' => j'.getKey k2
  | none => none

/-- Modelled from the spec: the machine-consumable serialization of a
metrics summary — a nested mapping with keys `session_id`; `tokens`
(`total`, `input`, `output`, cache sub-fields); `tools` (`by_name`,
`by_category`, total count); `files` (`read`, `created` lists);
`conversation` (turn count, per-turn summaries). Empty collections
appear as empty, never as absent keys (spec section 6,
`TraceMetrics.to_dict`). -/
def TraceMetrics.to_dict (m : TraceMetrics) : Json :=
  Json.obj
    [("session_id",
       match m.session_id with
       | none => Json.null
       | some s => Json.str s),
     ("tokens", Json.obj
       [("total", Json.num m.total_tokens),
        ("input", Json.num m.total_input_tokens),
        ("output", Json.num m.total_output_tokens),
        ("cache_creation", Json.num m.total_cache_creation_tokens),
        ("cache_read", Json.num m.total_cache_read_tokens)]),
     ("tools", Json.obj
       [("total_tool_calls", Json.num m.total_tool_calls),
        ("by_name", Json.obj (m.tool_counts.map fun x => (x.1, Json.num x.2))),
        ("by_category", Json.obj (m.category_counts.map fun x => (x.1, Json.num x.2)))]),
     ("files", Json.obj
       [("read", Json.arr (m.files_read.map Json.str)),
        ("created", Json.arr (m.files_created.map Json.str))]),
     ("conversation", Json.obj
       [("num_turns", Json.num m.num_turns),
        ("turns", Json.arr (m.conversation.map Json.str))])]

/-- A Python value as the script wrappers of `.test/scripts/` see it:
`None`, booleans, integers, strings, lists and string-keyed
dictionaries (from `.test/scripts/_common.py`). -/
inductive PyValue where
  | pyNone
  | bool (b : Bool)
  | int (n : Int)
  | str (s : String)
  | list (xs : List PyValue)
  | dict (fields : List (String × PyValue))

/-- Python truthiness: `None`, `False`, zero, and empty strings, lists
and dictionaries are falsy; everything else is truthy. -/
def PyValue.truthy : PyValue → Bool
  | .pyNone => false
  | .bool b => b
  | .int n => decide (n ≠ 0)
  | .str s => decide (s ≠ "")
  | .list xs => !xs.isEmpty
  | .dict fields => !fields.isEmpty

/-- A Python dictionary with string keys, as passed to `print_result`. -/
def PyDict : Type := List (String × PyValue)

/-- Python's `dict.__getitem__`-with-default, `d.get(k, default)`:
the first binding of `k`, or `default` when the key is absent. -/
def pyGet : PyDict → String → PyValue → PyValue
  | [], _, default => default
  | (k', v) :: rest, k, default => if k' = k then v else pyGet rest k default

/-- Option-valued key lookup in a Python dictionary. -/
def pyLookup : PyDict → String → Option PyValue
  | [], _ => none
  | (k', v) :: rest, k => if k' = k then some v else pyLookup rest k

/-- From `.test/scripts/_common.py`, `print_result`: print the result
dictionary as JSON and return exit code 0 when
`result.get("success", False)` is truthy, 1 otherwise. The model
returns the printed dictionary together with the exit code. -/
def print_result (result : PyDict) : PyDict × Nat :=
  (result, if (pyGet result "success" (PyValue.bool false)).truthy then 0 else 1)

/-- From `.test/scripts/_common.py`, `handle_error`: print a JSON object
with the error text, `success` set to `False` and the skill name, and
return exit code 1. -/
def handle_error (e : String) (skill_name : String) : PyDict × Nat :=
  ([("error", PyValue.str e),
    ("success", PyValue.bool false),
    ("skill_name", PyValue.str skill_name)], 1)

/-- The two ways the body of a wrapper script's `main` can end: the
command returned a result dictionary, or it raised an exception that
the `except` clause caught (from `.test/scripts/run_eval.py`). -/
inductive RunOutcome where
  | ok (result : PyDict)
  | raised (e : String)

/-- From `.test/scripts/run_eval.py`, `main`: the printed dictionary and
the process exit code — a returned result goes through `print_result`,
a caught exception goes through `handle_error`. -/
def scriptMain (skill_name : String) : RunOutcome → PyDict × Nat
  | .ok r => print_result r
  | .raised e => handle_error e skill_name

/-- The input-token count an entry contributes to the running totals:
the usage counter of an assistant entry, zero for anything else. -/
def entryInputTokens (e : TranscriptEntry) : Nat :=
  match e.payload with
  | .assistant p => p.usage.input_tokens
  | .user _ _ => 0

/-- The output-token count an entry contributes to the running totals. -/
def entryOutputTokens (e : TranscriptEntry) : Nat :=
  match e.payload with
  | .assistant p => p.usage.output_tokens
  | .user _ _ => 0

/-- The same entry with both cache counters of its usage zeroed; used to
state that the headline token total never depends on cache counters. -/
def zeroCacheFields (e : TranscriptEntry) : TranscriptEntry :=
  { e with payload :=
      match e.payload with
      | .assistant p => EntryPayload.assistant
          { p with usage :=
              { p.usage with
                cache_creation_input_tokens := 0
                cache_read_input_tokens := 0 } }
      | pl => pl }

/-- One extra assistant entry invoking the named tool once, with no
token usage and no file path; the "one additional invocation" of the
monotonicity property. -/
def bannedInvocationEntry (toolName : String) : TranscriptEntry :=
  { uuid := "banned-extra"
    timestamp := ""
    sessionId := none
    parentUuid := none
    payload := EntryPayload.assistant
      { model := "claude-3-5-sonnet-20241022"
        usage :=
          { input_tokens := 0
            output_tokens := 0
            cache_creation_input_tokens := 0
            cache_read_input_tokens := 0 }
        content := MessageContent.blocks
          [ContentBlock.tool_use "ban-call" toolName none] } }

/-- A policy whose only constraint is one expected-file glob pattern. -/
def expectedSqlPolicy : TraceExpectations :=
  { tool_limits := []
    token_budget := none
    required_tools := []
    banned_tools := []
    expected_files := ["*.sql"]
    category_limits := [] }

/-- A policy whose only constraint is one banned tool. -/
def bannedBashPolicy : TraceExpectations :=
  { tool_limits := []
    token_budget := none
    required_tools := []
    banned_tools := ["Bash"]
    expected_files := []
    category_limits := [] }

/-- The trace-expectations policy of the integration-test manifest
(`.test/tests/integration/conftest.py`, `real_skill_dir`). -/
def manifestPolicy : TraceExpectations :=
  { tool_limits := [("Bash", 20), ("Read", 50), ("Write", 10)]
    token_budget := some { max_total := 100000 }
    required_tools := ["Read"]
    banned_tools := []
    expected_files := ["*.sql"]
    category_limits := [("bash", 25), ("mcp_databricks", 15)] }

/-! Counting lemmas for the association-list counters. -/

theorem countOf_incr_self (al : List (String × Nat)) (k : String) :
    countOf (incr al k) k = countOf al k + 1 := by
  induction al with
  | nil => simp [incr, countOf]
  | cons x rest ih =>
      by_cases hx : x.1 = k
      · simp [incr, countOf, hx]
      · simp [incr, countOf, hx, ih]

/-! Field-preservation lemmas for the aggregation step components. -/

theorem applySession_eta (m : TraceMetrics) (sid : Option String) :
    applySession m sid = { m with session_id := (applySession m sid).session_id } := by
  unfold applySession
  split
  · split <;> rfl
  · rfl

theorem applySession_num_turns (m : TraceMetrics) (sid : Option String) :
    (applySession m sid).num_turns = m.num_turns := by
  rw [applySession_eta]

theorem applySession_total_tokens (m : TraceMetrics) (sid : Option String) :
    (applySession m sid).total_tokens = m.total_tokens := by
  rw [applySession_eta]

theorem applySession_total_input_tokens (m : TraceMetrics) (sid : Option String) :
    (applySession m sid).total_input_tokens = m.total_input_tokens := by
  rw [applySession_eta]

theorem applySession_total_output_tokens (m : TraceMetrics) (sid : Option String) :
    (applySession m sid).total_output_tokens = m.total_output_tokens := by
  rw [applySession_eta]

theorem applySession_tool_counts (m : TraceMetrics) (sid : Option String) :
    (applySession m sid).tool_counts = m.tool_counts := by
  rw [applySession_eta]

theorem applyMeta_num_turns (m : TraceMetrics) (meta : Option FileOpMeta) :
    (applyMeta m meta).num_turns = m.num_turns := by
  unfold applyMeta
  split
  · rfl
  · split
    · rfl
    · split <;> rfl

theorem applyMeta_total_tokens (m : TraceMetrics) (meta : Option FileOpMeta) :
    (applyMeta m meta).total_tokens = m.total_tokens := by
  unfold applyMeta
  split
  · rfl
  · split
    · rfl
    · split <;> rfl

theorem applyMeta_total_input_tokens (m : TraceMetrics) (meta : Option FileOpMeta) :
    (applyMeta m meta).total_input_tokens = m.total_input_tokens := by
  unfold applyMeta
  split
  · rfl
  · split
    · rfl
    · split <;> rfl

theorem applyMeta_total_output_tokens (m : TraceMetrics) (meta : Option FileOpMeta) :
    (applyMeta m meta).total_output_tokens = m.total_output_tokens := by
  unfold applyMeta
  split
  · rfl
  · split
    · rfl
    · split <;> rfl

theorem applyMeta_tool_counts (m : TraceMetrics) (meta : Option FileOpMeta) :
    (applyMeta m meta).tool_counts = m.tool_counts := by
  unfold applyMeta
  split
  · rfl
  · split
    · rfl
    · split <;> rfl

theorem recordToolUse_num_turns (m : TraceMetrics) (name : String) (fp : Option String) :
    (recordToolUse m name fp).num_turns = m.num_turns := by
  unfold recordToolUse
  split <;> rfl

theorem recordToolUse_total_tokens (m : TraceMetrics) (name : String) (fp : Option String) :
    (recordToolUse m name fp).total_tokens = m.total_tokens := by
  unfold recordToolUse
  split <;> rfl

theorem recordToolUse_total_input_tokens (m : TraceMetrics) (name : String) (fp : Option String) :
    (recordToolUse m name fp).total_input_tokens = m.total_input_tokens := by
  unfold recordToolUse
  split <;> rfl

theorem recordToolUse_total_output_tokens (m : TraceMetrics) (name : String) (fp : Option String) :
    (recordToolUse m name fp).total_output_tokens = m.total_output_tokens := by
  unfold recordToolUse
  split <;> rfl

theorem recordToolUse_tool_counts (m : TraceMetrics) (name : String) (fp : Option String) :
    (recordToolUse m name fp).tool_counts = incr m.tool_counts name := by
  unfold recordToolUse
  split <;> rfl

theorem stepBlock_num_turns (m : TraceMetrics) (b : ContentBlock) :
    (stepBlock m b).num_turns = m.num_turns := by
  cases b <;> simp [stepBlock, recordToolUse_num_turns]

theorem stepBlock_total_tokens (m : TraceMetrics) (b : ContentBlock) :
    (stepBlock m b).total_tokens = m.total_tokens := by
  cases b <;> simp [stepBlock, recordToolUse_total_tokens]

theorem stepBlock_total_input_tokens (m : TraceMetrics) (b : ContentBlock) :
    (stepBlock m b).total_input_tokens = m.total_input_tokens := by
  cases b <;> simp [stepBlock, recordToolUse_total_input_tokens]

theorem stepBlock_total_output_tokens (m : TraceMetrics) (b : ContentBlock) :
    (stepBlock m b).total_output_tokens = m.total_output_tokens := by
  cases b <;> simp [stepBlock, recordToolUse_total_output_tokens]

theorem foldl_stepBlock_preserves (g : TraceMetrics → Nat)
    (hg : ∀ m b, g (stepBlock m b) = g m) (bs : List ContentBlock) :
    ∀ m : TraceMetrics, g (bs.foldl stepBlock m) = g m := by
  induction bs with
  | nil => intro m; rfl
  | cons b bs ih => intro m; rw [List.foldl_cons, ih, hg]

/-! Per-entry effect of the aggregation step on the audited projections. -/

theorem step_num_turns (m : TraceMetrics) (e : TranscriptEntry) :
    (step m e).num_turns = m.num_turns + (if e.isAssistant then 1 else 0) := by
  rcases e with ⟨u, ts, sid, pu, pl⟩
  rcases pl with ⟨c, meta⟩ | p
  · simp [step, TranscriptEntry.isAssistant, applyMeta_num_turns, applySession_num_turns]
  · simp only [step, TranscriptEntry.isAssistant,
      foldl_stepBlock_preserves TraceMetrics.num_turns stepBlock_num_turns,
      applySession_num_turns]
    rfl

theorem step_total_tokens (m : TraceMetrics) (e : TranscriptEntry) :
    (step m e).total_tokens
      = m.total_tokens + (entryInputTokens e + entryOutputTokens e) := by
  rcases e with ⟨u, ts, sid, pu, pl⟩
  rcases pl with ⟨c, meta⟩ | p
  · simp [step, entryInputTokens, entryOutputTokens,
      applyMeta_total_tokens, applySession_total_tokens]
  · simp only [step, entryInputTokens, entryOutputTokens,
      foldl_stepBlock_preserves TraceMetrics.total_tokens stepBlock_total_tokens]
    show (addUsage (applySession m sid) p.usage).total_tokens = _
    simp [addUsage, applySession_total_tokens]
    omega

theorem step_total_input_tokens (m : TraceMetrics) (e : TranscriptEntry) :
    (step m e).total_input_tokens
      = m.total_input_tokens + entryInputTokens e := by
  rcases e with ⟨u, ts, sid, pu, pl⟩
  rcases pl with ⟨c, meta⟩ | p
  · simp [step, entryInputTokens,
      applyMeta_total_input_tokens, applySession_total_input_tokens]
  · simp only [step, entryInputTokens,
      foldl_stepBlock_preserves TraceMetrics.total_input_tokens stepBlock_total_input_tokens]
    show (addUsage (applySession m sid) p.usage).total_input_tokens = _
    simp [addUsage, applySession_total_input_tokens]

theorem step_total_output_tokens (m : TraceMetrics) (e : TranscriptEntry) :
    (step m e).total_output_tokens
      = m.total_output_tokens + entryOutputTokens e := by
  rcases e with ⟨u, ts, sid, pu, pl⟩
  rcases pl with ⟨c, meta⟩ | p
  · simp [step, entryOutputTokens,
      applyMeta_total_output_tokens, applySession_total_output_tokens]
  · simp only [step, entryOutputTokens,
      foldl_stepBlock_preserves TraceMetrics.total_output_tokens stepBlock_total_output_tokens]
    show (addUsage (applySession m sid) p.usage).total_output_tokens = _
    simp [addUsage, applySession_total_output_tokens]

/-- The running total a projection of the fold reaches, as the starting
value plus the per-entry contributions. -/
theorem foldl_step_proj (g : TraceMetrics → Nat) (d : TranscriptEntry → Nat)
    (hstep : ∀ m e, g (step m e) = g m + d e) (es : List TranscriptEntry) :
    ∀ m : TraceMetrics, g (es.foldl step m) = g m + (es.map d).sum := by
  induction es with
  | nil => intro m; simp
  | cons e es ih =>
      intro m
      rw [List.foldl_cons, ih, hstep]
      simp [Nat.add_assoc]

theorem sum_map_add {α : Type} (f g : α → Nat) (l : List α) :
    (l.map fun a => f a + g a).sum = (l.map f).sum + (l.map g).sum := by
  induction l with
  | nil => rfl
  | cons a l ih =>
      simp only [List.map_cons, List.sum_cons, ih]
      omega

theorem compute_metrics_total_input (es : List TranscriptEntry) :
    (compute_metrics es).total_input_tokens = (es.map entryInputTokens).sum := by
  simpa [emptyMetrics] using
    foldl_step_proj TraceMetrics.total_input_tokens entryInputTokens
      step_total_input_tokens es emptyMetrics

theorem compute_metrics_total_output (es : List TranscriptEntry) :
    (compute_metrics es).total_output_tokens = (es.map entryOutputTokens).sum := by
  simpa [emptyMetrics] using
    foldl_step_proj TraceMetrics.total_output_tokens entryOutputTokens
      step_total_output_tokens es emptyMetrics

theorem compute_metrics_total_tokens (es : List TranscriptEntry) :
    (compute_metrics es).total_tokens
      = (es.map fun e => entryInputTokens e + entryOutputTokens e).sum := by
  simpa [emptyMetrics] using
    foldl_step_proj TraceMetrics.total_tokens
      (fun e => entryInputTokens e + entryOutputTokens e)
      step_total_tokens es emptyMetrics

theorem entryInputTokens_zeroCacheFields (e : TranscriptEntry) :
    entryInputTokens (zeroCacheFields e) = entryInputTokens e := by
  rcases e with ⟨u, ts, sid, pu, pl⟩
  rcases pl with ⟨c, meta⟩ | p <;> rfl

theorem entryOutputTokens_zeroCacheFields (e : TranscriptEntry) :
    entryOutputTokens (zeroCacheFields e) = entryOutputTokens e := by
  rcases e with ⟨u, ts, sid, pu, pl⟩
  rcases pl with ⟨c, meta⟩ | p <;> rfl

/-- **C1**: for every trace, the aggregated total token count equals the
sum of the total input tokens and the total output tokens, and zeroing
every cache-creation and cache-read counter of the trace leaves the
headline total unchanged — the cache counters are never included in it. -/
theorem total_tokens_is_input_plus_output (es : List TranscriptEntry) :
    (compute_metrics es).total_tokens
      = (compute_metrics es).total_input_tokens
        + (compute_metrics es).total_output_tokens ∧
    (compute_metrics (es.map zeroCacheFields)).total_tokens
      = (compute_metrics es).total_tokens := by
  constructor
  · rw [compute_metrics_total_tokens, compute_metrics_total_input,
      compute_metrics_total_output, sum_map_add]
  · rw [compute_metrics_total_tokens, compute_metrics_total_tokens,
      List.map_map]
    congr 1
    apply List.map_congr_left
    intro e _
    simp [Function.comp, entryInputTokens_zeroCacheFields,
      entryOutputTokens_zeroCacheFields]

theorem sum_map_turn_indicator (es : List TranscriptEntry) :
    (es.map fun e => if e.isAssistant then 1 else 0).sum
      = es.countP (fun e => e.isAssistant) := by
  induction es with
  | nil => rfl
  | cons e es ih =>
      by_cases h : e.isAssistant
      · simp [List.countP_cons, h, ih]
        omega
      · simp [List.countP_cons, h, ih]

/-- **C2**: for every trace, the computed turn count equals exactly the
number of entries whose type is assistant — independent of the total
entry count, of user entries, and of the content blocks any assistant
entry carries. -/
theorem num_turns_counts_assistant_entries (es : List TranscriptEntry) :
    (compute_metrics es).num_turns = es.countP (fun e => e.isAssistant) := by
  have h := foldl_step_proj TraceMetrics.num_turns
    (fun e => if e.isAssistant then 1 else 0) step_num_turns es emptyMetrics
  simpa [emptyMetrics, sum_map_turn_indicator] using h

/-! Characterization of the best-effort line decoder. -/

theorem foldl_decodeStep (ls : List TraceLine) :
    ∀ acc : List TranscriptEntry × Nat,
      ls.foldl decodeStep acc
        = (acc.1 ++ decodedEntries ls, acc.2 + ls.countP TraceLine.isMalformed) := by
  induction ls with
  | nil => intro acc; simp [decodedEntries]
  | cons l ls ih =>
      intro acc
      rw [List.foldl_cons, ih]
      cases l <;>
        simp [decodeStep, decodedEntries, TraceLine.isMalformed, List.countP_cons]
      omega

theorem decodeLines_eq (ls : List TraceLine) :
    decodeLines ls = (decodedEntries ls, ls.countP TraceLine.isMalformed) := by
  simpa using foldl_decodeStep ls ([], 0)

/-- **C7**: each undecodable line is skipped and counted rather than
raising, the metrics of the decodable lines are still produced, and the
parse escalates to a whole-file failure exactly when zero lines of the
file decode. -/
theorem parse_is_best_effort_per_line (ls : List TraceLine) :
    parse_transcript ls =
      (if decodedEntries ls = [] then Except.error ParseError.noEntriesDecoded
       else Except.ok (decodedEntries ls, ls.countP TraceLine.isMalformed)) ∧
    (parse_transcript ls).map (fun r => compute_metrics r.1) =
      (if decodedEntries ls = [] then Except.error ParseError.noEntriesDecoded
       else Except.ok (compute_metrics (decodedEntries ls))) := by
  have h1 : parse_transcript ls =
      (if decodedEntries ls = [] then Except.error ParseError.noEntriesDecoded
       else Except.ok (decodedEntries ls, ls.countP TraceLine.isMalformed)) := by
    unfold parse_transcript
    rw [decodeLines_eq]
    by_cases h : decodedEntries ls = [] <;> simp [h]
  refine ⟨h1, ?_⟩
  rw [h1]
  by_cases h : decodedEntries ls = [] <;> simp [h, Except.map]

/-! Every violation a check emits carries that check's tag. -/

theorem scorer_of_mem_checkToolLimits {m : TraceMetrics} {p : TraceExpectations}
    {v : Violation} (hv : v ∈ checkToolLimits m p) : v.scorer = "tool_limit" := by
  rcases List.mem_filterMap.mp hv with ⟨a, _, ha⟩
  split at ha
  · cases ha; rfl
  · cases ha

theorem scorer_of_mem_checkCategoryLimits {m : TraceMetrics} {p : TraceExpectations}
    {v : Violation} (hv : v ∈ checkCategoryLimits m p) : v.scorer = "category_limit" := by
  rcases List.mem_filterMap.mp hv with ⟨a, _, ha⟩
  split at ha
  · cases ha; rfl
  · cases ha

theorem scorer_of_mem_checkTokenBudget {m : TraceMetrics} {p : TraceExpectations}
    {v : Violation} (hv : v ∈ checkTokenBudget m p) : v.scorer = "token_budget" := by
  unfold checkTokenBudget at hv
  split at hv
  · cases hv
  · split at hv
    · rw [List.mem_singleton] at hv
      subst hv
      rfl
    · cases hv

theorem scorer_of_mem_checkRequiredTools {m : TraceMetrics} {p : TraceExpectations}
    {v : Violation} (hv : v ∈ checkRequiredTools m p) : v.scorer = "required_tools" := by
  rcases List.mem_filterMap.mp hv with ⟨a, _, ha⟩
  split at ha
  · cases ha; rfl
  · cases ha

theorem scorer_of_mem_checkBannedTools {m : TraceMetrics} {p : TraceExpectations}
    {v : Violation} (hv : v ∈ checkBannedTools m p) : v.scorer = "banned_tools" := by
  rcases List.mem_filterMap.mp hv with ⟨a, _, ha⟩
  split at ha
  · cases ha; rfl
  · cases ha

theorem scorer_of_mem_checkExpectedFiles {m : TraceMetrics} {p : TraceExpectations}
    {v : Violation} (hv : v ∈ checkExpectedFiles m p) : v.scorer = "expected_files" := by
  rcases List.mem_filterMap.mp hv with ⟨a, _, ha⟩
  split at ha
  · cases ha
  · cases ha; rfl

theorem tag_of_mem_checkToolLimits {m : TraceMetrics} {p : TraceExpectations}
    {v : Violation} (hv : v ∈ checkToolLimits m p) : checkNumber v = 1 := by
  simp [checkNumber, scorer_of_mem_checkToolLimits hv]

theorem tag_of_mem_checkCategoryLimits {m : TraceMetrics} {p : TraceExpectations}
    {v : Violation} (hv : v ∈ checkCategoryLimits m p) : checkNumber v = 2 := by
  simp [checkNumber, scorer_of_mem_checkCategoryLimits hv]

theorem tag_of_mem_checkTokenBudget {m : TraceMetrics} {p : TraceExpectations}
    {v : Violation} (hv : v ∈ checkTokenBudget m p) : checkNumber v = 3 := by
  simp [checkNumber, scorer_of_mem_checkTokenBudget hv]

theorem tag_of_mem_checkRequiredTools {m : TraceMetrics} {p : TraceExpectations}
    {v : Violation} (hv : v ∈ checkRequiredTools m p) : checkNumber v = 4 := by
  simp [checkNumber, scorer_of_mem_checkRequiredTools hv]

theorem tag_of_mem_checkBannedTools {m : TraceMetrics} {p : TraceExpectations}
    {v : Violation} (hv : v ∈ checkBannedTools m p) : checkNumber v = 5 := by
  simp [checkNumber, scorer_of_mem_checkBannedTools hv]

theorem tag_of_mem_checkExpectedFiles {m : TraceMetrics} {p : TraceExpectations}
    {v : Violation} (hv : v ∈ checkExpectedFiles m p) : checkNumber v = 6 := by
  simp [checkNumber, scorer_of_mem_checkExpectedFiles hv]

/-- Prepending a block of constant-tag violations to a tag-monotone list
keeps the list tag-monotone, and keeps the lower bound on every tag. -/
theorem pairwise_tagged {l₁ l₂ : List Violation} {a : Nat}
    (h1 : ∀ v ∈ l₁, checkNumber v = a)
    (h2 : ∀ v ∈ l₂, a ≤ checkNumber v)
    (hp : l₂.Pairwise fun u v => checkNumber u ≤ checkNumber v) :
    (l₁ ++ l₂).Pairwise (fun u v => checkNumber u ≤ checkNumber v) ∧
    (∀ v ∈ l₁ ++ l₂, a ≤ checkNumber v) := by
  constructor
  · rw [List.pairwise_append]
    refine ⟨?_, hp, ?_⟩
    · apply List.pairwise_of_forall_mem_list
      intro x hx y hy
      rw [h1 x hx, h1 y hy]
    · intro x hx y hy
      rw [h1 x hx]
      exact h2 y hy
  · intro v hv
    rcases List.mem_append.mp hv with h | h
    · rw [h1 v h]
    · exact h2 v h

theorem filter_tag_eq_self {l : List Violation} {k : Nat}
    (h : ∀ v ∈ l, checkNumber v = k) :
    l.filter (fun v => checkNumber v == k) = l := by
  rw [List.filter_eq_self]
  intro v hv
  simp [h v hv]

theorem filter_tag_eq_nil {l : List Violation} {k j : Nat}
    (h : ∀ v ∈ l, checkNumber v = j) (hjk : j ≠ k) :
    l.filter (fun v => checkNumber v == k) = [] := by
  rw [List.filter_eq_nil_iff]
  intro v hv
  simp [h v hv, hjk]

/-- **C3**: for every metrics summary and well-formed policy the
evaluator runs all six checks with no short-circuit — the result is the
concatenation of the six check outputs in check order 1 through 6, its
tag sequence is monotone, and filtering the result by each check's tag
recovers exactly that check's output (each check being an
order-preserving traversal of its policy mapping). -/
theorem evaluator_runs_six_checks_in_fixed_order
    (m : TraceMetrics) (p : TraceExpectations) (h : p.wellFormedB = true) :
    evaluate_policy m p =
      Except.ok (checkToolLimits m p ++ checkCategoryLimits m p ++
        checkTokenBudget m p ++ checkRequiredTools m p ++
        checkBannedTools m p ++ checkExpectedFiles m p) ∧
    (checkToolLimits m p ++ checkCategoryLimits m p ++ checkTokenBudget m p ++
      checkRequiredTools m p ++ checkBannedTools m p ++ checkExpectedFiles m p).Pairwise
      (fun u v => checkNumber u ≤ checkNumber v) ∧
    (checkToolLimits m p ++ checkCategoryLimits m p ++ checkTokenBudget m p ++
      checkRequiredTools m p ++ checkBannedTools m p ++ checkExpectedFiles m p).filter
      (fun v => checkNumber v == 1) = checkToolLimits m p ∧
    (checkToolLimits m p ++ checkCategoryLimits m p ++ checkTokenBudget m p ++
      checkRequiredTools m p ++ checkBannedTools m p ++ checkExpectedFiles m p).filter
      (fun v => checkNumber v == 2) = checkCategoryLimits m p ∧
    (checkToolLimits m p ++ checkCategoryLimits m p ++ checkTokenBudget m p ++
      checkRequiredTools m p ++ checkBannedTools m p ++ checkExpectedFiles m p).filter
      (fun v => checkNumber v == 3) = checkTokenBudget m p ∧
    (checkToolLimits m p ++ checkCategoryLimits m p ++ checkTokenBudget m p ++
      checkRequiredTools m p ++ checkBannedTools m p ++ checkExpectedFiles m p).filter
      (fun v => checkNumber v == 4) = checkRequiredTools m p ∧
    (checkToolLimits m p ++ checkCategoryLimits m p ++ checkTokenBudget m p ++
      checkRequiredTools m p ++ checkBannedTools m p ++ checkExpectedFiles m p).filter
      (fun v => checkNumber v == 5) = checkBannedTools m p ∧
    (checkToolLimits m p ++ checkCategoryLimits m p ++ checkTokenBudget m p ++
      checkRequiredTools m p ++ checkBannedTools m p ++ checkExpectedFiles m p).filter
      (fun v => checkNumber v == 6) = checkExpectedFiles m p := by
  have tagA : ∀ v ∈ checkToolLimits m p, checkNumber v = 1 :=
    fun v hv => tag_of_mem_checkToolLimits hv
  have tagB : ∀ v ∈ checkCategoryLimits m p, checkNumber v = 2 :=
    fun v hv => tag_of_mem_checkCategoryLimits hv
  have tagC : ∀ v ∈ checkTokenBudget m p, checkNumber v = 3 :=
    fun v hv => tag_of_mem_checkTokenBudget hv
  have tagD : ∀ v ∈ checkRequiredTools m p, checkNumber v = 4 :=
    fun v hv => tag_of_mem_checkRequiredTools hv
  have tagE : ∀ v ∈ checkBannedTools m p, checkNumber v = 5 :=
    fun v hv => tag_of_mem_checkBannedTools hv
  have tagF : ∀ v ∈ checkExpectedFiles m p, checkNumber v = 6 :=
    fun v hv => tag_of_mem_checkExpectedFiles hv
  have pF : (checkExpectedFiles m p).Pairwise
      (fun u v => checkNumber u ≤ checkNumber v) := by
    apply List.pairwise_of_forall_mem_list
    intro x hx y hy
    rw [tagF x hx, tagF y hy]
  have sEF := pairwise_tagged tagE (fun v hv => by rw [tagF v hv]; omega) pF
  have sDEF := pairwise_tagged tagD
    (fun v hv => by have := sEF.2 v hv; omega) sEF.1
  have sCDEF := pairwise_tagged tagC
    (fun v hv => by have := sDEF.2 v hv; omega) sDEF.1
  have sBCDEF := pairwise_tagged tagB
    (fun v hv => by have := sCDEF.2 v hv; omega) sCDEF.1
  have sABCDEF := pairwise_tagged tagA
    (fun v hv => by have := sBCDEF.2 v hv; omega) sBCDEF.1
  refine ⟨by simp [evaluate_policy, h], ?_, ?_, ?_, ?_, ?_, ?_, ?_⟩
  · have := sABCDEF.1
    simpa [List.append_assoc] using this
  · simp only [List.filter_append]
    rw [filter_tag_eq_self tagA, filter_tag_eq_nil tagB (by decide),
      filter_tag_eq_nil tagC (by decide), filter_tag_eq_nil tagD (by decide),
      filter_tag_eq_nil tagE (by decide), filter_tag_eq_nil tagF (by decide)]
    simp
  · simp only [List.filter_append]
    rw [filter_tag_eq_nil tagA (by decide), filter_tag_eq_self tagB,
      filter_tag_eq_nil tagC (by decide), filter_tag_eq_nil tagD (by decide),
      filter_tag_eq_nil tagE (by decide), filter_tag_eq_nil tagF (by decide)]
    simp
  · simp only [List.filter_append]
    rw [filter_tag_eq_nil tagA (by decide), filter_tag_eq_nil tagB (by decide),
      filter_tag_eq_self tagC, filter_tag_eq_nil tagD (by decide),
      filter_tag_eq_nil tagE (by decide), filter_tag_eq_nil tagF (by decide)]
    simp
  · simp only [List.filter_append]
    rw [filter_tag_eq_nil tagA (by decide), filter_tag_eq_nil tagB (by decide),
      filter_tag_eq_nil tagC (by decide), filter_tag_eq_self tagD,
      filter_tag_eq_nil tagE (by decide), filter_tag_eq_nil tagF (by decide)]
    simp
  · simp only [List.filter_append]
    rw [filter_tag_eq_nil tagA (by decide), filter_tag_eq_nil tagB (by decide),
      filter_tag_eq_nil tagC (by decide), filter_tag_eq_nil tagD (by decide),
      filter_tag_eq_self tagE, filter_tag_eq_nil tagF (by decide)]
    simp
  · simp only [List.filter_append]
    rw [filter_tag_eq_nil tagA (by decide), filter_tag_eq_nil tagB (by decide),
      filter_tag_eq_nil tagC (by decide), filter_tag_eq_nil tagD (by decide),
      filter_tag_eq_nil tagE (by decide), filter_tag_eq_self tagF]
    simp

/-- Witness for C3: the six-check contract instantiated at the
empty-trace metrics and the integration-test manifest policy. -/
theorem evaluator_runs_six_checks_witness :
    evaluate_policy (compute_metrics []) manifestPolicy =
      Except.ok (checkToolLimits (compute_metrics []) manifestPolicy ++
        checkCategoryLimits (compute_metrics []) manifestPolicy ++
        checkTokenBudget (compute_metrics []) manifestPolicy ++
        checkRequiredTools (compute_metrics []) manifestPolicy ++
        checkBannedTools (compute_metrics []) manifestPolicy ++
        checkExpectedFiles (compute_metrics []) manifestPolicy) ∧
    (checkToolLimits (compute_metrics []) manifestPolicy ++
      checkCategoryLimits (compute_metrics []) manifestPolicy ++
      checkTokenBudget (compute_metrics []) manifestPolicy ++
      checkRequiredTools (compute_metrics []) manifestPolicy ++
      checkBannedTools (compute_metrics []) manifestPolicy ++
      checkExpectedFiles (compute_metrics []) manifestPolicy).Pairwise
      (fun u v => checkNumber u ≤ checkNumber v) :=
  ⟨(evaluator_runs_six_checks_in_fixed_order (compute_metrics [])
      manifestPolicy (by decide)).1,
   (evaluator_runs_six_checks_in_fixed_order (compute_metrics [])
      manifestPolicy (by decide)).2.1⟩

/-- **C4**: policy evaluation is deterministic — two evaluations of the
same (metrics, policy) pair yield element-for-element identical,
identically ordered results. -/
theorem policy_evaluation_deterministic
    (m : TraceMetrics) (p : TraceExpectations)
    (r₁ r₂ : Except PolicyError (List Violation))
    (h₁ : r₁ = evaluate_policy m p) (h₂ : r₂ = evaluate_policy m p) :
    r₁ = r₂ := by
  rw [h₁, h₂]

/-- Witness for C4 at the empty-trace metrics and the manifest policy. -/
theorem policy_evaluation_deterministic_witness :
    evaluate_policy (compute_metrics []) manifestPolicy
      = evaluate_policy (compute_metrics []) manifestPolicy :=
  policy_evaluation_deterministic (compute_metrics []) manifestPolicy _ _ rfl rfl

/-- Counterexample to C5 as stated: the empty trace evaluated against
the well-formed policy that only expects a `*.sql` file yields an
expected-files violation, so a check other than required-tools fires. -/
theorem empty_trace_expected_files_counterexample :
    expectedSqlPolicy.wellFormedB = true ∧
    evaluate_policy (compute_metrics []) expectedSqlPolicy =
      Except.ok [{ scorer := "expected_files",
                   rationale := "No recorded file matches pattern *.sql" }] ∧
    ("expected_files" : String) ≠ "required_tools" := by
  refine ⟨rfl, ?_, by decide⟩
  rfl

/-- **C5** (amended): an empty trace yields all-zero counts, empty
mappings and file sets and a zero turn count, and its evaluation
against any well-formed policy can only produce violations of the
required-tools and expected-files checks — no count-based or
budget-based check can fire. -/
theorem empty_trace_amended
    (p : TraceExpectations) (h : p.wellFormedB = true) :
    (compute_metrics []).num_turns = 0 ∧
    (compute_metrics []).total_tool_calls = 0 ∧
    (compute_metrics []).total_tokens = 0 ∧
    (compute_metrics []).total_input_tokens = 0 ∧
    (compute_metrics []).total_output_tokens = 0 ∧
    (compute_metrics []).tool_counts = [] ∧
    (compute_metrics []).category_counts = [] ∧
    (compute_metrics []).files_read = [] ∧
    (compute_metrics []).files_created = [] ∧
    evaluate_policy (compute_metrics []) p =
      Except.ok (checkRequiredTools (compute_metrics []) p ++
        checkExpectedFiles (compute_metrics []) p) ∧
    (∀ vs, evaluate_policy (compute_metrics []) p = Except.ok vs →
      ∀ v ∈ vs, v.scorer = "required_tools" ∨ v.scorer = "expected_files") := by
  have hw := h
  unfold TraceExpectations.wellFormedB at hw
  rw [Bool.and_eq_true, Bool.and_eq_true] at hw
  obtain ⟨⟨ht, hc⟩, hb⟩ := hw
  rw [List.all_eq_true] at ht hc
  have hA : checkToolLimits (compute_metrics []) p = [] := by
    unfold checkToolLimits
    rw [List.filterMap_eq_nil_iff]
    intro x hx
    have hx2 : 0 ≤ x.2 := by simpa using ht x hx
    rw [if_neg]
    show ¬((0 : Int) > x.2)
    omega
  have hB : checkCategoryLimits (compute_metrics []) p = [] := by
    unfold checkCategoryLimits
    rw [List.filterMap_eq_nil_iff]
    intro x hx
    have hx2 : 0 ≤ x.2 := by simpa using hc x hx
    rw [if_neg]
    show ¬((0 : Int) > x.2)
    omega
  have hC : checkTokenBudget (compute_metrics []) p = [] := by
    rcases htb : p.token_budget with _ | bud
    · simp [checkTokenBudget, htb]
    · rw [htb] at hb
      have hb2 : 0 ≤ bud.max_total := by simpa using hb
      simp only [checkTokenBudget, htb]
      rw [if_neg]
      show ¬((0 : Int) > bud.max_total)
      omega
  have hE : checkBannedTools (compute_metrics []) p = [] := by
    unfold checkBannedTools
    rw [List.filterMap_eq_nil_iff]
    intro x hx
    rw [if_neg]
    show ¬((0 : Nat) > 0)
    omega
  have heval : evaluate_policy (compute_metrics []) p =
      Except.ok (checkRequiredTools (compute_metrics []) p ++
        checkExpectedFiles (compute_metrics []) p) := by
    simp [evaluate_policy, h, hA, hB, hC, hE]
  refine ⟨rfl, rfl, rfl, rfl, rfl, rfl, rfl, rfl, rfl, heval, ?_⟩
  intro vs hvs v hv
  rw [heval] at hvs
  cases hvs
  rcases List.mem_append.mp hv with hm | hm
  · exact Or.inl (scorer_of_mem_checkRequiredTools hm)
  · exact Or.inr (scorer_of_mem_checkExpectedFiles hm)

/-- Witness for the amended C5 at the `*.sql`-expecting policy. -/
theorem empty_trace_amended_witness :
    expectedSqlPolicy.wellFormedB = true ∧
    evaluate_policy (compute_metrics []) expectedSqlPolicy =
      Except.ok (checkRequiredTools (compute_metrics []) expectedSqlPolicy ++
        checkExpectedFiles (compute_metrics []) expectedSqlPolicy) :=
  ⟨by decide,
   (empty_trace_amended expectedSqlPolicy (by decide)).2.2.2.2.2.2.2.2.2.1⟩

/-! The one extra banned invocation increments that tool's counter. -/

theorem countOf_step_banned (m : TraceMetrics) (b : String) :
    countOf (step m (bannedInvocationEntry b)).tool_counts b
      = countOf m.tool_counts b + 1 := by
  have h1 : (step m (bannedInvocationEntry b)).tool_counts
      = incr (applySession m none).tool_counts b := by
    show (recordToolUse _ b none).tool_counts = _
    rw [recordToolUse_tool_counts]
    rfl
  rw [h1, countOf_incr_self, applySession_tool_counts]

/-- **C6**: a compliant trace stays monotone under one extra banned-tool
invocation — re-evaluating after appending it keeps every violation of
the original (empty) evaluation and now reports a banned-tools
violation. -/
theorem adding_banned_invocation_only_adds_violations
    (t : List TranscriptEntry) (p : TraceExpectations) (b : String)
    (hb : b ∈ p.banned_tools)
    (h : evaluate_policy (compute_metrics t) p = Except.ok []) :
    ∃ vs, evaluate_policy (compute_metrics (t ++ [bannedInvocationEntry b])) p
        = Except.ok vs ∧
      (∀ v ∈ ([] : List Violation), v ∈ vs) ∧
      ∃ v ∈ vs, v.scorer = "banned_tools" := by
  have hw : p.wellFormedB = true := by
    by_cases hw : p.wellFormedB
    · exact hw
    · simp [evaluate_policy, hw] at h
  have hm : compute_metrics (t ++ [bannedInvocationEntry b])
      = step (compute_metrics t) (bannedInvocationEntry b) := by
    simp [compute_metrics, List.foldl_append]
  have hcount :
      countOf (compute_metrics (t ++ [bannedInvocationEntry b])).tool_counts b
        = countOf (compute_metrics t).tool_counts b + 1 := by
    rw [hm, countOf_step_banned]
  refine ⟨checkToolLimits (compute_metrics (t ++ [bannedInvocationEntry b])) p ++
      checkCategoryLimits (compute_metrics (t ++ [bannedInvocationEntry b])) p ++
      checkTokenBudget (compute_metrics (t ++ [bannedInvocationEntry b])) p ++
      checkRequiredTools (compute_metrics (t ++ [bannedInvocationEntry b])) p ++
      checkBannedTools (compute_metrics (t ++ [bannedInvocationEntry b])) p ++
      checkExpectedFiles (compute_metrics (t ++ [bannedInvocationEntry b])) p,
    by simp [evaluate_policy, hw], ?_, ?_⟩
  · intro v hv
    cases hv
  · refine ⟨Violation.mk "banned_tools"
        s!"Banned tool {b} was used {countOf (compute_metrics (t ++ [bannedInvocationEntry b])).tool_counts b} times",
      ?_, rfl⟩
    have hmem : Violation.mk "banned_tools"
        s!"Banned tool {b} was used {countOf (compute_metrics (t ++ [bannedInvocationEntry b])).tool_counts b} times"
        ∈ checkBannedTools (compute_metrics (t ++ [bannedInvocationEntry b])) p := by
      apply List.mem_filterMap.mpr
      refine ⟨b, hb, ?_⟩
      rw [if_pos]
      omega
    simp only [List.mem_append]
    exact Or.inl (Or.inr hmem)

/-- Witness for C6: the empty trace is compliant with the
banned-Bash-only policy, and one appended Bash invocation triggers the
banned-tools check. -/
theorem adding_banned_invocation_witness :
    ∃ vs, evaluate_policy
        (compute_metrics ([] ++ [bannedInvocationEntry "Bash"])) bannedBashPolicy
        = Except.ok vs ∧
      (∀ v ∈ ([] : List Violation), v ∈ vs) ∧
      ∃ v ∈ vs, v.scorer = "banned_tools" :=
  adding_banned_invocation_only_adds_violations [] bannedBashPolicy "Bash"
    (by decide) rfl

theorem notFound_message_ne_empty (path : String) :
    ("Trace file not found: " ++ path) ≠ "" := by
  intro hh
  have h2 : "Trace file not found: ".data ++ path.data = ([] : List Char) :=
    congrArg String.data hh
  rw [List.append_eq_nil] at h2
  exact absurd h2.1 (by decide)

/-- **C8**: evaluating a path that does not exist fails with NotFound
and produces a structured result whose success indicator is false and
whose error message is non-empty, rather than terminating abruptly. -/
theorem missing_trace_is_structured_failure
    (fs : FileSystem) (path : String) (p : TraceExpectations)
    (h : readFile fs path = none) :
    parse_and_compute_metrics fs path
      = Except.error (ParseError.notFound path) ∧
    (trace_eval fs path p).success = false ∧
    (trace_eval fs path p).error = some ("Trace file not found: " ++ path) ∧
    ("Trace file not found: " ++ path) ≠ "" := by
  have h1 : parse_and_compute_metrics fs path
      = Except.error (ParseError.notFound path) := by
    unfold parse_and_compute_metrics
    rw [h]
  have h2 : trace_eval fs path p
      = EvalResult.mk false (some ("Trace file not found: " ++ path)) 0 [] := by
    unfold trace_eval
    rw [h1]
  exact ⟨h1, by rw [h2], by rw [h2], notFound_message_ne_empty path⟩

/-- Witness for C8 at the empty file system and the path of the
integration test for missing traces. -/
theorem missing_trace_witness :
    parse_and_compute_metrics ([] : FileSystem) "/nonexistent/path.jsonl"
      = Except.error (ParseError.notFound "/nonexistent/path.jsonl") ∧
    (trace_eval ([] : FileSystem) "/nonexistent/path.jsonl" expectedSqlPolicy).success
      = false ∧
    (trace_eval ([] : FileSystem) "/nonexistent/path.jsonl" expectedSqlPolicy).error
      = some ("Trace file not found: " ++ "/nonexistent/path.jsonl") ∧
    ("Trace file not found: " ++ "/nonexistent/path.jsonl") ≠ "" :=
  missing_trace_is_structured_failure [] "/nonexistent/path.jsonl"
    expectedSqlPolicy rfl

/-- **C9**: the serialized metrics output of every trace carries every
field of the schema — `session_id`; `tokens` with total, input, output
and both cache sub-fields; `tools` with total count, by-name and
by-category mappings; `files` with read and created lists;
`conversation` with the turn count and per-turn summaries. A mapping or
list with no data serializes as the empty object or array under its
key, never as an absent key. -/
theorem metrics_dict_has_complete_schema (m : TraceMetrics) :
    (m.to_dict.getKey "session_id").isSome = true ∧
    m.to_dict.getPath "tokens" "total" = some (Json.num m.total_tokens) ∧
    m.to_dict.getPath "tokens" "input" = some (Json.num m.total_input_tokens) ∧
    m.to_dict.getPath "tokens" "output" = some (Json.num m.total_output_tokens) ∧
    m.to_dict.getPath "tokens" "cache_creation"
      = some (Json.num m.total_cache_creation_tokens) ∧
    m.to_dict.getPath "tokens" "cache_read"
      = some (Json.num m.total_cache_read_tokens) ∧
    m.to_dict.getPath "tools" "total_tool_calls"
      = some (Json.num m.total_tool_calls) ∧
    m.to_dict.getPath "tools" "by_name"
      = some (Json.obj (m.tool_counts.map fun x => (x.1, Json.num x.2))) ∧
    m.to_dict.getPath "tools" "by_category"
      = some (Json.obj (m.category_counts.map fun x => (x.1, Json.num x.2))) ∧
    m.to_dict.getPath "files" "read"
      = some (Json.arr (m.files_read.map Json.str)) ∧
    m.to_dict.getPath "files" "created"
      = some (Json.arr (m.files_created.map Json.str)) ∧
    m.to_dict.getPath "conversation" "num_turns"
      = some (Json.num m.num_turns) ∧
    m.to_dict.getPath "conversation" "turns"
      = some (Json.arr (m.conversation.map Json.str)) :=
  ⟨rfl, rfl, rfl, rfl, rfl, rfl, rfl, rfl, rfl, rfl, rfl, rfl, rfl⟩

theorem pyGet_eq_lookup (d : PyDict) (k : String) (default : PyValue) :
    pyGet d k default = (pyLookup d k).getD default := by
  induction d with
  | nil => rfl
  | cons x rest ih =>
      obtain ⟨k2, v⟩ := x
      by_cases hx : k2 = k <;> simp [pyGet, pyLookup, hx, ih]

/-- **C10**: `print_result` returns exit code 0 exactly when the result
dictionary's `success` key is present and truthy, a missing key giving
exit code 1; `handle_error` always returns exit code 1 and prints a
dictionary whose `success` is `False`; hence a wrapper script's `main`
exits 0 only when the dictionary it printed reports a truthy
`success`. -/
theorem wrapper_exit_code_contract
    (r : PyDict) (e skill : String) (o : RunOutcome) :
    ((print_result r).2 = 0 ↔
      ∃ v, pyLookup r "success" = some v ∧ v.truthy = true) ∧
    (pyLookup r "success" = none → (print_result r).2 = 1) ∧
    (handle_error e skill).2 = 1 ∧
    pyLookup (handle_error e skill).1 "success" = some (PyValue.bool false) ∧
    ((scriptMain skill o).2 = 0 →
      (pyGet (scriptMain skill o).1 "success" (PyValue.bool false)).truthy = true) := by
  have hpr : (print_result r).2
      = if (pyGet r "success" (PyValue.bool false)).truthy then 0 else 1 := rfl
  refine ⟨?_, ?_, rfl, rfl, ?_⟩
  · rw [hpr, pyGet_eq_lookup]
    rcases hx : pyLookup r "success" with _ | v
    · simp [PyValue.truthy]
    · by_cases ht : v.truthy = true <;> simp [ht]
  · intro hnone
    rw [hpr, pyGet_eq_lookup, hnone]
    simp [PyValue.truthy]
  · intro h0
    cases o with
    | raised e2 => simp [scriptMain, handle_error] at h0
    | ok r2 =>
        by_cases hc : (pyGet r2 "success" (PyValue.bool false)).truthy
        · exact hc
        · simp [scriptMain, print_result, hc] at h0

/-- Witness for C10 at a result dictionary reporting success, with a
demo exception text and skill name. -/
theorem wrapper_exit_code_contract_witness :
    ((print_result ([("success", PyValue.bool true)] : PyDict)).2 = 0 ↔
      ∃ v, pyLookup ([("success", PyValue.bool true)] : PyDict) "success"
          = some v ∧ v.truthy = true) ∧
    (pyLookup ([("success", PyValue.bool true)] : PyDict) "success" = none →
      (print_result ([("success", PyValue.bool true)] : PyDict)).2 = 1) ∧
    (handle_error "boom" "demo-skill").2 = 1 ∧
    pyLookup (handle_error "boom" "demo-skill").1 "success"
      = some (PyValue.bool false) ∧
    ((scriptMain "demo-skill"
        (RunOutcome.ok ([("success", PyValue.bool true)] : PyDict))).2 = 0 →
      (pyGet (scriptMain "demo-skill"
          (RunOutcome.ok ([("success", PyValue.bool true)] : PyDict))).1
        "success" (PyValue.bool false)).truthy = true) :=
  wrapper_exit_code_contract [("success", PyValue.bool true)] "boom" "demo-skill"
    (RunOutcome.ok [("success", PyValue.bool true)])

end SkillTest
